import Mathlib

/-!
MediBlaze medical-assistant service: a shallow embedding.

This file embeds the behaviourally relevant parts of the MediBlaze
repository (a FastAPI medical chat service built around a two-node
LangGraph agent with three tools) and proves properties of the embedded
code.

* `src/agent/utils/tools.py` — the three tools `medical_web_search`,
  `rag_tool` and `disease_prediction`.  Network and vector-store effects
  (DuckDuckGo search, Pinecone retrieval) are modelled as explicit
  oracle arguments of type `Except String _`: `.ok r` means the SDK call
  returned `r`, `.error e` means it raised an exception whose message is
  `e`.  Everything after the effect is pure Python string code and is
  translated directly.
* `src/agent/agent.py` — the agent graph (`llm_call`, `environment`,
  conditional edges) and the tool-dispatch node `tool_node`.
* `src/main.py` — the conversation-history handling of the `/chat` and
  `/chat/stream` handlers.

Python `pat in s` on strings is substring containment, embedded as
`strContains`; `s.lower()` is `strLower`; `s.strip()` is `strTrim`.
These are defined on the character list of the string so that they
evaluate by `decide` inside the kernel.
-/

/-- Does `pat` occur as a prefix-at-some-position of `l`?  Helper for
`strContains`. -/
def scanContains (pat : List Char) : List Char → Bool
  | [] => pat.isPrefixOf []
  | c :: rest => pat.isPrefixOf (c :: rest) || scanContains pat rest

/-- Embedding of Python `pat in s` (substring containment). -/
def strContains (s pat : String) : Bool :=
  scanContains pat.data s.data

/-- Embedding of Python `s.lower()` (`str.lower`). -/
def strLower (s : String) : String :=
  ⟨s.data.map Char.toLower⟩

/-- Embedding of Python `s.strip()`: remove leading and trailing
whitespace. -/
def strTrim (s : String) : String :=
  ⟨((s.data.dropWhile Char.isWhitespace).reverse.dropWhile Char.isWhitespace).reverse⟩

/-!
Section: disease_prediction (src/agent/utils/tools.py, lines 107–350).

The tool first performs a Pinecone retrieval (an effect, modelled by the
`retrieve` oracle).  Everything that follows is pure string code:
severity scoring, duration scoring, an if/elif keyword table that
collects prediction records, and the rendering of the final markdown
string.
-/

/-- A retrieved document (only `page_content` is ever read). -/
structure Doc where
  page_content : String
deriving DecidableEq

/-- One entry of the `predictions` list built by `disease_prediction`
(a Python dict with keys condition/probability/risk/reasoning/tests/actions). -/
structure Prediction where
  condition : String
  probability : String
  risk : String
  reasoning : String
  tests : String
  actions : List String
deriving DecidableEq

/-- The "Dengue Fever" record appended at tools.py lines 194–201. -/
def dengue_fever : Prediction :=
  { condition := "Dengue Fever"
    probability := "HIGH (75-85%)"
    risk := "MODERATE-HIGH"
    reasoning := "Classic triad: fever + retro-orbital headache + nausea. Contact history supports viral transmission."
    tests := "Complete Blood Count (CBC), Dengue NS1 antigen, IgM/IgG antibodies"
    actions := ["See doctor within 24 hours", "Monitor platelet count", "Hydrate aggressively", "Avoid NSAIDs (aspirin/ibuprofen)"] }

/-- The "Viral Fever" record appended at tools.py lines 204–211. -/
def viral_fever : Prediction :=
  { condition := "Viral Fever (Influenza/Common Viral Infection)"
    probability := "HIGH (70-80%)"
    risk := "MODERATE"
    reasoning := "Fever + body aches + systemic symptoms. Contact with sick colleague increases likelihood."
    tests := "Usually clinical diagnosis, Rapid Flu test if severe"
    actions := ["Rest and hydration", "Paracetamol for fever", "Monitor for 48-72 hours", "See doctor if worsening"] }

/-- The "Non-Respiratory Viral Infection" record, tools.py lines 214–221. -/
def non_respiratory_viral : Prediction :=
  { condition := "Non-Respiratory Viral Infection"
    probability := "MODERATE (60-70%)"
    risk := "LOW-MODERATE"
    reasoning := "Systemic symptoms without respiratory signs suggest non-respiratory viral infection."
    tests := "CBC, CRP (inflammatory markers)"
    actions := ["Symptomatic treatment", "Monitor temperature", "Seek care if fever >3 days"] }

/-- The "Migraine" record, tools.py lines 226–233. -/
def migraine : Prediction :=
  { condition := "Migraine"
    probability := "HIGH (70-85%)"
    risk := "MODERATE"
    reasoning := "Headache + photophobia + nausea = classic migraine triad."
    tests := "Clinical diagnosis, imaging if red flags present"
    actions := ["Dark, quiet room", "Triptans or NSAIDs (if appropriate)", "Antiemetics for nausea", "Avoid triggers"] }

/-- The "Possible Meningitis" record, tools.py lines 236–243. -/
def possible_meningitis : Prediction :=
  { condition := "⚠️ SERIOUS: Possible Meningitis/Intracranial Issue"
    probability := "LOW-MODERATE (15-30%)"
    risk := "🚨 VERY HIGH"
    reasoning := "Severe headache + fever + nausea can indicate serious infection."
    tests := "URGENT: CT scan, Lumbar puncture"
    actions := ["🚨 SEEK EMERGENCY CARE IMMEDIATELY", "Do NOT delay", "Check for neck stiffness, confusion"] }

/-- The "Lower Respiratory Tract Infection" record, tools.py lines 248–255. -/
def lower_respiratory_infection : Prediction :=
  { condition := "Lower Respiratory Tract Infection (Bronchitis/Pneumonia)"
    probability := "MODERATE-HIGH (60-75%)"
    risk := "MODERATE-HIGH"
    reasoning := "Productive cough + fever suggests bacterial or viral LRTI."
    tests := "Chest X-ray, Sputum culture"
    actions := ["See doctor for evaluation", "May need antibiotics", "Monitor breathing", "Hydration"] }

/-- The "Post-Viral Cough" record, tools.py lines 257–264. -/
def post_viral_cough : Prediction :=
  { condition := "Post-Viral Cough / Upper Respiratory Infection"
    probability := "HIGH (70-80%)"
    risk := "LOW"
    reasoning := "Isolated cough without fever often post-viral."
    tests := "Usually none needed"
    actions := ["Honey, steam inhalation", "OTC cough suppressants", "See doctor if >2 weeks"] }

/-- The "Food Poisoning" record, tools.py lines 269–276. -/
def food_poisoning : Prediction :=
  { condition := "Food Poisoning / Gastroenteritis"
    probability := "HIGH (75-85%)"
    risk := "MODERATE"
    reasoning := "Recent seafood consumption + GI symptoms = likely food poisoning."
    tests := "Stool culture if severe"
    actions := ["Aggressive hydration (ORS)", "BRAT diet", "Avoid dairy temporarily", "See doctor if bloody stool/high fever"] }

/-- The fallback "Undifferentiated Viral Illness" record, tools.py lines 280–287. -/
def undifferentiated_viral : Prediction :=
  { condition := "Undifferentiated Viral Illness"
    probability := "MODERATE (50-70%)"
    risk := "MODERATE"
    reasoning := "Symptoms suggest viral infection but pattern unclear. Needs more clinical evaluation."
    tests := "CBC, CRP, viral panel if indicated"
    actions := ["Symptomatic management", "Medical evaluation recommended", "Monitor closely"] }

/-- All nine pre-written condition templates that `disease_prediction`
can ever emit, in source order. -/
def conditionTemplates : List Prediction :=
  [dengue_fever, viral_fever, non_respiratory_viral, migraine,
   possible_meningitis, lower_respiratory_infection, post_viral_cough,
   food_poisoning, undifferentiated_viral]

/-- Embedding of Python `any(term in s for term in terms)`. -/
def anyTermIn (terms : List String) (s : String) : Bool :=
  terms.any (fun term => strContains s term)

/-- The keyword list of the HIGH severity branch, tools.py line 152. -/
def severity_high_terms : List String := ["severe", "worst", "unbearable", "9", "10"]

/-- The keyword list of the MODERATE severity branch, tools.py line 154. -/
def severity_moderate_terms : List String := ["moderate", "significant", "6", "7", "8"]

/-- The keyword list of the PROLONGED duration branch, tools.py line 161. -/
def duration_prolonged_terms : List String := ["week", "weeks", "month", "chronic"]

/-- The keyword list of the MODERATE duration branch, tools.py line 163. -/
def duration_moderate_terms : List String := ["days", "3 day", "4 day", "5 day"]

/-- Severity scoring, tools.py lines 150–157. -/
def severityScore (severity : String) : String :=
  let severity_lower := strLower severity
  if anyTermIn severity_high_terms severity_lower then "HIGH"
  else if anyTermIn severity_moderate_terms severity_lower then "MODERATE"
  else "MILD"

/-- Duration risk assessment, tools.py lines 159–166. -/
def durationRisk (duration : String) : String :=
  let duration_lower := strLower duration
  if anyTermIn duration_prolonged_terms duration_lower then "PROLONGED"
  else if anyTermIn duration_moderate_terms duration_lower then "MODERATE"
  else "ACUTE"

/-- The "# Fever-related conditions" block of the keyword table,
tools.py lines 190–221, as a function of `symptoms_lower`. -/
def feverPredictions (symptoms_lower : String) : List Prediction :=
  if strContains symptoms_lower "fever" then
    (if (strContains symptoms_lower "headache behind eyes" || strContains symptoms_lower "eye pain")
        && (strContains symptoms_lower "nausea" || strContains symptoms_lower "vomit") then
      [dengue_fever]
    else []) ++
    (if strContains symptoms_lower "body ache" || strContains symptoms_lower "muscle" then
      [viral_fever]
    else []) ++
    (if !strContains symptoms_lower "cough" && !strContains symptoms_lower "throat" then
      [non_respiratory_viral]
    else [])
  else []

/-- The "# Headache-focused conditions" block, tools.py lines 224–243. -/
def headachePredictions (symptoms_lower severity_score : String) : List Prediction :=
  if strContains symptoms_lower "headache" then
    (if strContains symptoms_lower "nausea"
        && (strContains symptoms_lower "light" || strContains symptoms_lower "sensitivity") then
      [migraine]
    else []) ++
    (if severity_score = "HIGH" && strContains symptoms_lower "sudden" then
      [possible_meningitis]
    else [])
  else []

/-- The "# Respiratory conditions" block, tools.py lines 246–264. -/
def coughPredictions (symptoms_lower : String) : List Prediction :=
  if strContains symptoms_lower "cough" then
    if strContains symptoms_lower "fever" then [lower_respiratory_infection]
    else [post_viral_cough]
  else []

/-- The "# GI conditions" block, tools.py lines 267–276. -/
def giPredictions (symptoms_lower additional_info : String) : List Prediction :=
  if ["stomach", "nausea", "vomit", "diarrhea", "abdominal"].any (fun term => strContains symptoms_lower term) then
    if strContains (strLower additional_info) "seafood" || strContains symptoms_lower "food" then
      [food_poisoning]
    else []
  else []

/-- The `predictions` list accumulated by the four keyword blocks of
`disease_prediction`, tools.py lines 184–276, in append order. -/
def basePredictions (symptoms severity additional_info : String) : List Prediction :=
  let symptoms_lower := strLower symptoms
  let severity_score := severityScore severity
  feverPredictions symptoms_lower
    ++ headachePredictions symptoms_lower severity_score
    ++ coughPredictions symptoms_lower
    ++ giPredictions symptoms_lower additional_info

/-- The final `predictions` list, tools.py lines 184–287: the keyword
output of the table, with the generic fallback appended when the table
produced nothing (lines 279–287).  It is a function of the lowercased
symptoms, the severity score and the lowercased additional info — the
`duration` argument of the surrounding function and the retrieved documents
are never consulted here. -/
def buildPredictions (symptoms severity additional_info : String) : List Prediction :=
  if basePredictions symptoms severity additional_info = [] then [undifferentiated_viral]
  else basePredictions symptoms severity additional_info

/-- The predictions actually rendered into the output:
`predictions[:5]` from the loop at tools.py line 290. -/
def emittedPredictions (symptoms severity additional_info : String) : List Prediction :=
  (buildPredictions symptoms severity additional_info).take 5

/-- The header f-string of the prediction response, tools.py
lines 169–182. -/
def predictionHeader (symptoms duration severity additional_info duration_risk severity_score : String) : String :=
  "\n🔬 **DISEASE PREDICTION ANALYSIS**\n\n📋 **Symptoms Summary:**\n• Primary: "
    ++ symptoms ++ "\n• Duration: " ++ duration ++ " (" ++ duration_risk
    ++ ")\n• Severity: " ++ severity ++ " (" ++ severity_score ++ " risk)\n"
    ++ (if additional_info ≠ "" then "• Additional: " ++ additional_info else "")
    ++ "\n\n---\n\n🎯 **Most Likely Conditions:**\n\n"

/-- The risk emoji chosen per prediction, tools.py line 291. -/
def riskEmoji (risk : String) : String :=
  if strContains risk "HIGH" then "🚨"
  else if strContains risk "MODERATE" then "⚠️"
  else "ℹ️"

/-- The markdown block rendered for one prediction at 1-based index
`idx`, tools.py lines 293–308. -/
def renderPrediction (idx : Nat) (p : Prediction) : String :=
  "\n**" ++ toString idx ++ ". " ++ p.condition ++ "**\n" ++ riskEmoji p.risk
    ++ " Probability: " ++ p.probability ++ " | Risk Level: " ++ p.risk
    ++ "\n\n📝 **Why this diagnosis:**\n" ++ p.reasoning
    ++ "\n\n🧪 **Recommended Tests:**\n" ++ p.tests
    ++ "\n\n✅ **What You Should Do:**\n"
    ++ p.actions.foldl (fun acc action => acc ++ "\n• " ++ action) ""
    ++ "\n\n"

/-- The loop `for idx, pred in enumerate(predictions[:5], 1)`,
tools.py line 290 (the `[:5]` truncation itself happens in
`emittedPredictions`). -/
def renderPredictionList (preds : List Prediction) : String :=
  String.join (preds.enum.map (fun ip => renderPrediction (ip.1 + 1) ip.2))

/-- The general-recommendations tail of the response, tools.py
lines 311–343; its only interpolation is the see-a-doctor day
threshold `3 if duration_risk == "ACUTE" else 1`. -/
def generalRecommendations (duration_risk : String) : String :=
  "\n---\n\n💡 **General Recommendations:**\n\n✅ **Immediate Steps:**\n• Continue monitoring temperature every 4-6 hours\n• Maintain fluid intake (2-3 liters/day minimum)\n• Get adequate rest (8+ hours sleep)\n• Keep symptom diary (helps doctor assessment)\n\n🏥 **When to See a Doctor:**\n• Symptoms persist beyond "
    ++ toString (if duration_risk = "ACUTE" then (3 : Nat) else 1)
    ++ " days without improvement\n• Fever >103°F (39.4°C) or persistent fever\n• Development of new concerning symptoms\n• Unable to keep fluids down\n• Severe weakness or confusion\n\n🚨 **SEEK EMERGENCY CARE IF:**\n• Difficulty breathing or chest pain\n• Severe headache with neck stiffness\n• Persistent vomiting leading to dehydration\n• Altered mental status or confusion\n• Symptoms of internal bleeding\n• Fever with rash that doesn\x27t blanch\n\n---\n\n⚠️ **Important Disclaimer:**\nThis is an AI-assisted prediction based on symptom patterns. It is NOT a definitive diagnosis. Only a healthcare professional can provide accurate diagnosis after proper examination and tests. If in doubt, always consult a doctor.\n\n📞 **Need Human Medical Advice?** Contact your healthcare provider or visit nearest clinic/hospital.\n"

/-- The successful (no exception) path of `disease_prediction`,
tools.py lines 130–346, as a function of the retrieved documents and
the four string arguments.  `knowledge_context` is built exactly as in
the source (line 148) and — as in the source — never used again. -/
def disease_prediction_ok (docs : List Doc) (symptoms duration severity additional_info : String) : String :=
  let knowledge_context :=
    match docs with
    | [] => "Limited information available"
    | _ => String.intercalate "\n\n" ((docs.take 5).map Doc.page_content)
  let severity_score := severityScore severity
  let duration_risk := durationRisk duration
  predictionHeader symptoms duration severity additional_info duration_risk severity_score
    ++ renderPredictionList (emittedPredictions symptoms severity additional_info)
    ++ generalRecommendations duration_risk

/-- The full `disease_prediction` tool, tools.py lines 107–350: the
`retrieve` oracle is the Pinecone retrieval (`.error e` models any
exception raised inside the `try` block, whose message is `e`); the
`except` handler at lines 348–350 interpolates the exception text into
its fallback string. -/
def disease_prediction (retrieve : Except String (List Doc)) (symptoms duration severity additional_info : String) : String :=
  match retrieve with
  | .ok docs => disease_prediction_ok docs symptoms duration severity additional_info
  | .error e =>
      "⚠️ Unable to perform disease prediction analysis at this time. Error: " ++ e
        ++ "\n\nPlease consult with a healthcare professional for proper diagnosis."

/-!
Section: medical_web_search and rag_tool (src/agent/utils/tools.py).
-/

/-- The `search_indicator` prefix, tools.py line 43. -/
def searchIndicator : String :=
  "🔍 **Searching web for latest medical information...**\n\n"

/-- The no-results fallback of `medical_web_search`, tools.py line 49. -/
def webNoResultsMessage : String :=
  searchIndicator ++ "I couldn\x27t find current web information about that health topic. Please consult with a healthcare professional for the most accurate information."

/-- The exception fallback of `medical_web_search`, tools.py line 56. -/
def webErrorMessage : String :=
  "⚠️ An error occurred while searching for health information online. Please try again or consult with a healthcare professional."

/-- The site-restricted `medical_query` built from the raw query,
tools.py line 39. -/
def medicalQuery (query : String) : String :=
  query ++ " health medical wellness site:who.int OR site:mayoclinic.org OR site:webmd.com OR site:healthline.com OR site:medlineplus.gov OR site:cdc.gov OR site:nih.gov"

/-- The tool `medical_web_search`, tools.py lines 26–56.  The `search` oracle is
`duckduckgo_search.invoke`, applied to the site-restricted
`medical_query` built from the raw query. -/
def medical_web_search (search : String → Except String String) (query : String) : String :=
  match search (medicalQuery query) with
  | .ok results =>
      if results = "" || (strTrim results).length < 20 then
        webNoResultsMessage
      else
        searchIndicator ++ "**🌐 Latest Health Information from Web:**\n\n" ++ results
  | .error _ => webErrorMessage

/-- The no-results fallback of `rag_tool`, tools.py line 91. -/
def ragFallbackMessage : String :=
  "📚 I couldn\x27t find specific information about that in our health knowledge base. Let me search for current health information online to help you better."

/-- The header prefixed to successful knowledge-base results,
tools.py line 94. -/
def ragHeader : String :=
  "**📚 From MediBlaze Health Knowledge Base:**\n\n"

/-- The missing-index fallback of `rag_tool`, tools.py line 103. -/
def ragUnavailableMessage : String :=
  "📚 The health knowledge base is currently unavailable. I\x27ll use web search to find current medical information for you."

/-- The generic exception fallback of `rag_tool`, tools.py line 105. -/
def ragErrorMessage : String :=
  "⚠️ An error occurred while searching our health knowledge base. Let me search the web for current health information instead."

/-- The tool `rag_tool`, tools.py lines 58–105.  The `retrieve` oracle is the
single retriever-tool invocation (line 87); `.error e` models any
exception raised inside the `try` block with message `e`. -/
def rag_tool (retrieve : String → Except String String) (query : String) : String :=
  match retrieve query with
  | .ok result =>
      if result = "" || (strTrim result).length < 20 then
        ragFallbackMessage
      else
        ragHeader ++ result
  | .error e =>
      if strContains e "NOT_FOUND" || strContains (strLower e) "not found" then
        ragUnavailableMessage
      else
        ragErrorMessage

/-!
Section: the agent graph and tool dispatch (src/agent/agent.py).
-/

/-- One entry of an `AIMessage.tool_calls` list. -/
structure ToolCall where
  name : String
  args : String
  id : String
deriving DecidableEq

/-- A message of the LangGraph `MessagesState` (only the fields the
embedded code reads). -/
structure Message where
  content : String
  tool_calls : List ToolCall
deriving DecidableEq

/-- A `ToolMessage` produced by the tool node. -/
structure ToolMessage where
  content : String
  tool_call_id : String
deriving DecidableEq

/-- The three tools bound to the agent, agent.py lines 36–40. -/
inductive ToolSpec where
  | rag_tool
  | disease_prediction
  | medical_web_search
deriving DecidableEq

/-- The `@tool` name of each tool (the Python function name). -/
def ToolSpec.name : ToolSpec → String
  | .rag_tool => "rag_tool"
  | .disease_prediction => "disease_prediction"
  | .medical_web_search => "medical_web_search"

/-- The list `tools`, agent.py lines 36–40, in source order. -/
def tools : List ToolSpec :=
  [ToolSpec.rag_tool, ToolSpec.disease_prediction, ToolSpec.medical_web_search]

/-- The mapping `tools_by_name`, agent.py line 41: dictionary lookup by tool name
(`none` models the `KeyError` path). -/
def tools_by_name (name : String) : Option ToolSpec :=
  tools.find? (fun t => t.name == name)

/-- The canned content of the `except` branch of `tool_node`,
agent.py line 65. -/
def toolNodeErrorMessage : String :=
  "⚠️ Tool error occurred. Providing response based on available knowledge."

/-- The body of the per-tool-call loop of `tool_node`, agent.py
lines 59–65: look the tool up by name, invoke it, and on any exception
(failed lookup or failed invocation, via the `invoke` oracle) return
the canned `ToolMessage` instead. -/
def tool_node_message (invoke : ToolSpec → String → Except String String) (tc : ToolCall) : ToolMessage :=
  match tools_by_name tc.name with
  | some t =>
      match invoke t tc.args with
      | .ok observation => ⟨observation, tc.id⟩
      | .error _ => ⟨toolNodeErrorMessage, tc.id⟩
  | none => ⟨toolNodeErrorMessage, tc.id⟩

/-- The node `tool_node`, agent.py lines 56–66: one `ToolMessage` per tool call
of the last message of the state. -/
def tool_node (invoke : ToolSpec → String → Except String String)
    (messages : List Message) (h : messages ≠ []) : List ToolMessage :=
  ((messages.getLast h).tool_calls).map (tool_node_message invoke)

/-- The nodes of the compiled agent graph, agent.py lines 81–96
(`START` and `END` are the virtual entry and exit of LangGraph). -/
inductive GraphNode where
  | START
  | llm_call
  | environment
  | END
deriving DecidableEq

/-- The router `should_continue`, agent.py lines 68–77: "Action" when the last
message carries tool calls, "END" otherwise. -/
def should_continue (messages : List Message) (h : messages ≠ []) : String :=
  if (messages.getLast h).tool_calls ≠ [] then "Action" else "END"

/-- The conditional-edge mapping registered for `llm_call`,
agent.py lines 85–92: {"Action" ↦ environment, "END" ↦ END}. -/
def conditionalEdge (label : String) : Option GraphNode :=
  if label = "Action" then some GraphNode.environment
  else if label = "END" then some GraphNode.END
  else none

/-- The successor of each node of the compiled graph, given the state
(agent.py lines 84–93): `START → llm_call`; after `llm_call` the
conditional edge on `should_continue`; after `environment`
unconditionally back to `llm_call`; `END` has no successor. -/
def nextGraphNode : GraphNode → (messages : List Message) → messages ≠ [] → Option GraphNode
  | .START, _, _ => some .llm_call
  | .llm_call, messages, h => conditionalEdge (should_continue messages h)
  | .environment, _, _ => some .llm_call
  | .END, _, _ => none

/-!
Section: conversation-history handling (src/main.py).
-/

/-- One stored exchange of `conversation_history[session_id]`
(main.py lines 218–223 and 335–340); the timestamp is abstracted to a
number. -/
structure HistoryEntry where
  user_message : String
  bot_response : String
  timestamp : Nat
  tools_used : List String
deriving DecidableEq

/-- The history update performed by both `/chat` (main.py lines
218–227) and `/chat/stream` (lines 335–344): append the new exchange,
then, if the list now holds more than 10 entries, keep only the last
10 (`history[-10:]`). -/
def appendAndTrimHistory (history : List HistoryEntry) (entry : HistoryEntry) : List HistoryEntry :=
  let h := history ++ [entry]
  if h.length > 10 then h.drop (h.length - 10) else h

/-- A message of the context handed to the agent. -/
inductive ContextMsg where
  | human (content : String)
  | ai (content : String)
deriving DecidableEq

/-- The slice `conversation_history[session_id][-5:]`: the stored exchanges used
to build the agent context (main.py lines 182 and 280). -/
def contextEntries (history : List HistoryEntry) : List HistoryEntry :=
  history.drop (history.length - 5)

/-- The context built by both chat handlers (main.py lines 180–187 and
277–285): a Human/AI message pair per entry of `history[-5:]`, then the
current message. -/
def buildAgentContext (history : List HistoryEntry) (current : String) : List ContextMsg :=
  ((contextEntries history).foldl
    (fun msgs entry => msgs ++ [ContextMsg.human entry.user_message, ContextMsg.ai entry.bot_response]) [])
    ++ [ContextMsg.human current]

/-- A concrete history entry, used to instantiate the history theorems. -/
def sampleEntry (n : Nat) : HistoryEntry :=
  ⟨"user message " ++ toString n, "bot response " ++ toString n, n, []⟩

/-- A session history holding exactly ten stored exchanges. -/
def tenEntries : List HistoryEntry :=
  (List.range 10).map sampleEntry

/-!
Section: helper lemmas.
-/

/-- Since `scanContains` finds `pat` anywhere, so containment in `t` gives
containment in `s ++ t`. -/
theorem scanContains_append_left (pat s t : List Char)
    (h : scanContains pat t = true) : scanContains pat (s ++ t) = true := by
  induction s with
  | nil => simpa using h
  | cons c cs ih =>
      simp only [List.cons_append, scanContains, Bool.or_eq_true]
      exact Or.inr ih

/-- String-level version of `scanContains_append_left`. -/
theorem strContains_append_left (s t pat : String)
    (h : strContains t pat = true) : strContains (s ++ t) pat = true := by
  unfold strContains at h ⊢
  rw [String.data_append]
  exact scanContains_append_left _ _ _ h

/-- The scan `scanContains` is sound and complete for `List.IsInfix`: the
embedded substring test agrees with the mathematical notion of a
contiguous sublist. -/
theorem scanContains_iff (pat l : List Char) :
    scanContains pat l = true ↔ pat <:+: l := by
  induction l with
  | nil =>
      constructor
      · intro h
        simp only [scanContains] at h
        rcases pat with _ | ⟨c, cs⟩
        · exact List.nil_infix
        · simp at h
      · intro h
        have : pat = [] := List.eq_nil_of_infix_nil h
        simp [this, scanContains]
  | cons c rest ih =>
      simp only [scanContains, Bool.or_eq_true, ih, List.isPrefixOf_iff_prefix]
      exact (List.infix_cons_iff).symm

/-- A guarded singleton is a sublist of the singleton. -/
theorem ite_singleton_sublist {α : Type} {c : Prop} [Decidable c] (x : α) :
    List.Sublist (if c then [x] else []) [x] := by
  split
  · exact List.Sublist.refl _
  · exact List.nil_sublist _

/-- The fever block only ever emits its three templates, in order. -/
theorem feverPredictions_sublist (sl : String) :
    List.Sublist (feverPredictions sl) [dengue_fever, viral_fever, non_respiratory_viral] := by
  unfold feverPredictions
  split
  · exact (List.Sublist.append
      (List.Sublist.append (ite_singleton_sublist _) (ite_singleton_sublist _))
      (ite_singleton_sublist _))
  · exact List.nil_sublist _

/-- The headache block only ever emits its two templates, in order. -/
theorem headachePredictions_sublist (sl sc : String) :
    List.Sublist (headachePredictions sl sc) [migraine, possible_meningitis] := by
  unfold headachePredictions
  split
  · exact List.Sublist.append (ite_singleton_sublist _) (ite_singleton_sublist _)
  · exact List.nil_sublist _

/-- The respiratory block only ever emits its two templates, in order. -/
theorem coughPredictions_sublist (sl : String) :
    List.Sublist (coughPredictions sl) [lower_respiratory_infection, post_viral_cough] := by
  unfold coughPredictions
  split
  · split
    · exact (List.singleton_sublist).mpr (by simp)
    · exact (List.singleton_sublist).mpr (by simp)
  · exact List.nil_sublist _

/-- The GI block only ever emits its single template. -/
theorem giPredictions_sublist (sl a : String) :
    List.Sublist (giPredictions sl a) [food_poisoning] := by
  unfold giPredictions
  split
  · exact ite_singleton_sublist _
  · exact List.nil_sublist _

/-- The final predictions list is always a sublist of the nine fixed
templates (in template order). -/
theorem buildPredictions_sublist (symptoms severity additional_info : String) :
    List.Sublist (buildPredictions symptoms severity additional_info) conditionTemplates := by
  unfold buildPredictions
  split
  · exact (List.singleton_sublist).mpr (by simp [conditionTemplates])
  · have hbase : List.Sublist (basePredictions symptoms severity additional_info)
        ([dengue_fever, viral_fever, non_respiratory_viral]
          ++ [migraine, possible_meningitis]
          ++ [lower_respiratory_infection, post_viral_cough]
          ++ [food_poisoning]) := by
      simp only [basePredictions]
      exact List.Sublist.append
        (List.Sublist.append
          (List.Sublist.append (feverPredictions_sublist _) (headachePredictions_sublist _ _))
          (coughPredictions_sublist _))
        (giPredictions_sublist _ _)
    exact hbase.trans (by simp [conditionTemplates])

/-- The score `severityScore` only reads the lowercased severity string. -/
theorem severityScore_congr {v w : String} (h : strLower v = strLower w) :
    severityScore v = severityScore w := by
  unfold severityScore
  rw [h]

/-- The score `durationRisk` only reads the lowercased duration string. -/
theorem durationRisk_congr {v w : String} (h : strLower v = strLower w) :
    durationRisk v = durationRisk w := by
  unfold durationRisk
  rw [h]

/-- The GI block only reads the lowercased additional info. -/
theorem giPredictions_congr (sl : String) {a b : String}
    (h : strLower a = strLower b) : giPredictions sl a = giPredictions sl b := by
  unfold giPredictions
  rw [h]

/-- The final predictions list only reads the lowercased symptoms, the
lowercased severity and the lowercased additional info. -/
theorem buildPredictions_congr {s₁ s₂ v₁ v₂ a₁ a₂ : String}
    (hs : strLower s₁ = strLower s₂) (hv : strLower v₁ = strLower v₂)
    (ha : strLower a₁ = strLower a₂) :
    buildPredictions s₁ v₁ a₁ = buildPredictions s₂ v₂ a₂ := by
  simp only [buildPredictions, basePredictions]
  rw [hs, severityScore_congr hv, giPredictions_congr _ ha]

/-- The keyword table plus fallback never yields an empty list. -/
theorem buildPredictions_ne_nil (symptoms severity additional_info : String) :
    buildPredictions symptoms severity additional_info ≠ [] := by
  unfold buildPredictions
  split
  · simp
  · assumption

/-- A successful knowledge-base answer can never equal the canned
fallback: the two strings start with different characters. -/
theorem ragHeader_ne_fallback (result : String) :
    ragHeader ++ result ≠ ragFallbackMessage := by
  intro hcontra
  have hdata : ragHeader.data ++ result.data = ragFallbackMessage.data := by
    rw [← String.data_append, hcontra]
  have hpre : ragHeader.data <+: ragFallbackMessage.data := ⟨result.data, hdata⟩
  have hbool : ragHeader.data.isPrefixOf ragFallbackMessage.data = true :=
    List.isPrefixOf_iff_prefix.mpr hpre
  have hfalse : ragHeader.data.isPrefixOf ragFallbackMessage.data = false := by decide
  rw [hbool] at hfalse
  exact absurd hfalse (by simp)

/-- Folding Human/AI message pairs over a list of exchanges adds two
messages per exchange. -/
theorem foldl_pair_length (l : List HistoryEntry) (init : List ContextMsg) :
    (l.foldl (fun msgs entry =>
        msgs ++ [ContextMsg.human entry.user_message, ContextMsg.ai entry.bot_response]) init).length
      = init.length + 2 * l.length := by
  induction l generalizing init with
  | nil => simp
  | cons x xs ih =>
      simp only [List.foldl_cons, ih, List.length_append, List.length_cons,
        List.length_nil, List.length_cons]
      omega

/-!
Section: claim theorems.
-/

/-- C1: in every normal return of `disease_prediction`, the condition
blocks emitted in the returned string are the rendered
`emittedPredictions`; they are drawn from the nine fixed pre-written
templates, and they are determined entirely by the lowercased
symptoms, severity and additional-info strings (two calls whose
lowercased inputs agree emit the same blocks, whatever the duration or
the retrieved documents). -/
theorem C1_emitted_condition_blocks (docs : List Doc)
    (symptoms duration severity additional_info : String)
    (symptoms₂ severity₂ additional_info₂ : String)
    (hs : strLower symptoms = strLower symptoms₂)
    (hv : strLower severity = strLower severity₂)
    (ha : strLower additional_info = strLower additional_info₂) :
    disease_prediction_ok docs symptoms duration severity additional_info
      = predictionHeader symptoms duration severity additional_info
          (durationRisk duration) (severityScore severity)
        ++ renderPredictionList (emittedPredictions symptoms severity additional_info)
        ++ generalRecommendations (durationRisk duration)
    ∧ emittedPredictions symptoms severity additional_info ⊆ conditionTemplates
    ∧ emittedPredictions symptoms severity additional_info
        = emittedPredictions symptoms₂ severity₂ additional_info₂ := by
  refine ⟨rfl, ?_, ?_⟩
  · exact ((List.take_sublist _ _).trans (buildPredictions_sublist _ _ _)).subset
  · unfold emittedPredictions
    rw [buildPredictions_congr hs hv ha]

/-- Witness for C1 at concrete inputs: upper-cased and lower-cased
symptom strings emit the same blocks, and those blocks are templates. -/
theorem C1_emitted_condition_blocks_witness :
    emittedPredictions "FEVER and Body Ache" "Mild" ""
      = emittedPredictions "fever and body ache" "mild" ""
    ∧ viral_fever ∈ conditionTemplates :=
  ⟨(C1_emitted_condition_blocks [] "FEVER and Body Ache" "2 days" "Mild" ""
      "fever and body ache" "mild" "" (by decide) (by decide) (by decide)).2.2,
   (C1_emitted_condition_blocks [] "FEVER and Body Ache" "2 days" "Mild" ""
      "fever and body ache" "mild" "" (by decide) (by decide) (by decide)).2.1 (by decide)⟩

/-- C2: the compiled agent is a two-node graph.  Execution starts at
`llm_call` (the edge from `START`); after `llm_call` control passes to
the tool node `environment` exactly when the last message of the state
has at least one tool call, and to `END` otherwise; after `environment`
control always returns to `llm_call`. -/
theorem C2_two_node_graph (messages : List Message) (h : messages ≠ []) :
    nextGraphNode GraphNode.START messages h = some GraphNode.llm_call
    ∧ (nextGraphNode GraphNode.llm_call messages h = some GraphNode.environment
        ↔ (messages.getLast h).tool_calls ≠ [])
    ∧ ((messages.getLast h).tool_calls = [] →
        nextGraphNode GraphNode.llm_call messages h = some GraphNode.END)
    ∧ nextGraphNode GraphNode.environment messages h = some GraphNode.llm_call := by
  refine ⟨rfl, ?_, ?_, rfl⟩
  · by_cases htc : (messages.getLast h).tool_calls = []
    · simp [nextGraphNode, should_continue, conditionalEdge, htc]
    · simp [nextGraphNode, should_continue, conditionalEdge, htc]
  · intro htc
    simp [nextGraphNode, should_continue, conditionalEdge, htc]

/-- Witness for C2 at a concrete one-message state without tool calls:
`llm_call` goes to `END` and `environment` goes back to `llm_call`. -/
theorem C2_two_node_graph_witness :
    nextGraphNode GraphNode.llm_call [⟨"hi", []⟩] (List.cons_ne_nil _ _)
      = some GraphNode.END
    ∧ nextGraphNode GraphNode.environment [⟨"hi", []⟩] (List.cons_ne_nil _ _)
      = some GraphNode.llm_call :=
  ⟨(C2_two_node_graph [⟨"hi", []⟩] (List.cons_ne_nil _ _)).2.2.1 rfl,
   (C2_two_node_graph [⟨"hi", []⟩] (List.cons_ne_nil _ _)).2.2.2⟩

/-- C4: a successful run of `disease_prediction` returns the same
string whatever documents the vector-store retriever produced: the
`knowledge_context` built from them never influences the output. -/
theorem C4_output_ignores_retrieval (docs₁ docs₂ : List Doc)
    (symptoms duration severity additional_info : String) :
    disease_prediction_ok docs₁ symptoms duration severity additional_info
      = disease_prediction_ok docs₂ symptoms duration severity additional_info := rfl

set_option maxRecDepth 40000 in
/-- C5: the severity score is HIGH iff the lowercased severity contains
one of severe/worst/unbearable/9/10, otherwise MODERATE iff it contains
one of moderate/significant/6/7/8, otherwise MILD; the duration risk is
PROLONGED iff the lowercased duration contains one of
week/weeks/month/chronic, otherwise MODERATE iff it contains one of
days/3 day/4 day/5 day, otherwise ACUTE; and the see-a-doctor threshold
printed in the output is 3 days when the duration risk is ACUTE and
1 day otherwise. -/
theorem C5_scoring_rules (docs : List Doc)
    (symptoms duration severity additional_info : String) :
    (severityScore severity = "HIGH" ↔
      anyTermIn severity_high_terms (strLower severity) = true)
    ∧ (severityScore severity = "MODERATE" ↔
      (anyTermIn severity_high_terms (strLower severity) = false
        ∧ anyTermIn severity_moderate_terms (strLower severity) = true))
    ∧ (severityScore severity = "MILD" ↔
      (anyTermIn severity_high_terms (strLower severity) = false
        ∧ anyTermIn severity_moderate_terms (strLower severity) = false))
    ∧ (durationRisk duration = "PROLONGED" ↔
      anyTermIn duration_prolonged_terms (strLower duration) = true)
    ∧ (durationRisk duration = "MODERATE" ↔
      (anyTermIn duration_prolonged_terms (strLower duration) = false
        ∧ anyTermIn duration_moderate_terms (strLower duration) = true))
    ∧ (durationRisk duration = "ACUTE" ↔
      (anyTermIn duration_prolonged_terms (strLower duration) = false
        ∧ anyTermIn duration_moderate_terms (strLower duration) = false))
    ∧ (durationRisk duration = "ACUTE" →
        strContains (disease_prediction_ok docs symptoms duration severity additional_info)
          "beyond 3 days" = true)
    ∧ (durationRisk duration ≠ "ACUTE" →
        strContains (disease_prediction_ok docs symptoms duration severity additional_info)
          "beyond 1 days" = true) := by
  have hdecomp : disease_prediction_ok docs symptoms duration severity additional_info
      = predictionHeader symptoms duration severity additional_info
          (durationRisk duration) (severityScore severity)
        ++ renderPredictionList (emittedPredictions symptoms severity additional_info)
        ++ generalRecommendations (durationRisk duration) := rfl
  refine ⟨?_, ?_, ?_, ?_, ?_, ?_, ?_, ?_⟩
  · simp only [severityScore]
    cases h1 : anyTermIn severity_high_terms (strLower severity) <;>
      cases h2 : anyTermIn severity_moderate_terms (strLower severity) <;> simp
  · simp only [severityScore]
    cases h1 : anyTermIn severity_high_terms (strLower severity) <;>
      cases h2 : anyTermIn severity_moderate_terms (strLower severity) <;> simp
  · simp only [severityScore]
    cases h1 : anyTermIn severity_high_terms (strLower severity) <;>
      cases h2 : anyTermIn severity_moderate_terms (strLower severity) <;> simp
  · simp only [durationRisk]
    cases h1 : anyTermIn duration_prolonged_terms (strLower duration) <;>
      cases h2 : anyTermIn duration_moderate_terms (strLower duration) <;> simp
  · simp only [durationRisk]
    cases h1 : anyTermIn duration_prolonged_terms (strLower duration) <;>
      cases h2 : anyTermIn duration_moderate_terms (strLower duration) <;> simp
  · simp only [durationRisk]
    cases h1 : anyTermIn duration_prolonged_terms (strLower duration) <;>
      cases h2 : anyTermIn duration_moderate_terms (strLower duration) <;> simp
  · intro hacute
    rw [hdecomp]
    apply strContains_append_left
    rw [hacute]
    decide
  · intro hacute
    rw [hdecomp]
    apply strContains_append_left
    unfold generalRecommendations
    rw [if_neg hacute]
    decide

/-- Witness for C5 at concrete inputs: an "unbearable" severity scores
HIGH, and a sub-three-day duration is ACUTE so the rendered output
advises seeing a doctor beyond 3 days. -/
theorem C5_scoring_rules_witness :
    severityScore "unbearable pain" = "HIGH"
    ∧ strContains (disease_prediction_ok [] "fever" "5 hours" "unbearable pain" "")
        "beyond 3 days" = true :=
  ⟨(C5_scoring_rules [] "fever" "5 hours" "unbearable pain" "").1.mpr (by decide),
   (C5_scoring_rules [] "fever" "5 hours" "unbearable pain" "").2.2.2.2.2.2.1 (by decide)⟩

/-- The trimmed history: its length is the minimum of the grown length
and the 10-entry cap. -/
theorem appendAndTrimHistory_length (history : List HistoryEntry) (entry : HistoryEntry) :
    (appendAndTrimHistory history entry).length = min (history.length + 1) 10 := by
  unfold appendAndTrimHistory
  have hlen : (history ++ [entry]).length = history.length + 1 := by simp
  by_cases hgt : (history ++ [entry]).length > 10
  · rw [if_pos hgt, List.length_drop]
    omega
  · rw [if_neg hgt, hlen]
    omega

/-- The trimmed history is a suffix of the grown history. -/
theorem appendAndTrimHistory_suffix (history : List HistoryEntry) (entry : HistoryEntry) :
    appendAndTrimHistory history entry <:+ history ++ [entry] := by
  unfold appendAndTrimHistory
  by_cases hgt : (history ++ [entry]).length > 10
  · rw [if_pos hgt]
    exact List.drop_suffix _ _
  · rw [if_neg hgt]

/-- Below the cap, the update is a pure append. -/
theorem appendAndTrimHistory_of_lt (history : List HistoryEntry) (entry : HistoryEntry)
    (h : history.length < 10) :
    appendAndTrimHistory history entry = history ++ [entry] := by
  unfold appendAndTrimHistory
  have hlen : (history ++ [entry]).length = history.length + 1 := by simp
  rw [if_neg (by omega)]

/-- The agent context holds two messages per used exchange plus one. -/
theorem buildAgentContext_length (history : List HistoryEntry) (current : String) :
    (buildAgentContext history current).length
      = 2 * (contextEntries history).length + 1 := by
  unfold buildAgentContext
  rw [List.length_append, foldl_pair_length]
  simp

/-- C6: every successful `disease_prediction` run lists at least 1 and
at most 5 conditions; when no keyword rule matched, the rendered list
is exactly the generic undifferentiated-viral fallback. -/
theorem C6_prediction_count (symptoms severity additional_info : String) :
    1 ≤ (emittedPredictions symptoms severity additional_info).length
    ∧ (emittedPredictions symptoms severity additional_info).length ≤ 5
    ∧ (basePredictions symptoms severity additional_info = [] →
        buildPredictions symptoms severity additional_info = [undifferentiated_viral]) := by
  refine ⟨?_, ?_, ?_⟩
  · have hne := buildPredictions_ne_nil symptoms severity additional_info
    unfold emittedPredictions
    rcases hbp : buildPredictions symptoms severity additional_info with _ | ⟨p, ps⟩
    · exact absurd hbp hne
    · simp
  · unfold emittedPredictions
    exact List.length_take_le _ _
  · intro hbase
    unfold buildPredictions
    rw [if_pos hbase]

/-- Witness for C6: with symptoms matching no keyword rule the output
list is exactly the generic fallback. -/
theorem C6_prediction_count_witness :
    buildPredictions "itchy elbow" "mild" "" = [undifferentiated_viral] :=
  (C6_prediction_count "itchy elbow" "mild" "").2.2 (by decide)

/-- C7 counterexample: with ten stored exchanges, processing one more
chat message discards the oldest entry, so chat handling does evict
stored data. -/
theorem C7_no_eviction_counterexample :
    sampleEntry 0 ∈ tenEntries
    ∧ sampleEntry 0 ∉ appendAndTrimHistory tenEntries (sampleEntry 10) := by
  decide

/-- C7 (amended): processing a chat message preserves all earlier
entries of the session history while it holds fewer than 10 entries;
once appending exceeds the cap, only the most recent 10 entries are
kept (the update is a suffix of the appended history of length
`min (n+1) 10`). -/
theorem C7_history_eviction_only_at_cap (history : List HistoryEntry) (entry : HistoryEntry) :
    (history.length < 10 → appendAndTrimHistory history entry = history ++ [entry])
    ∧ appendAndTrimHistory history entry <:+ history ++ [entry]
    ∧ (appendAndTrimHistory history entry).length = min (history.length + 1) 10 :=
  ⟨appendAndTrimHistory_of_lt history entry,
   appendAndTrimHistory_suffix history entry,
   appendAndTrimHistory_length history entry⟩

/-- Witness for C7 (amended) on an empty session: the exchange is
stored without any eviction. -/
theorem C7_history_eviction_only_at_cap_witness :
    appendAndTrimHistory [] (sampleEntry 0) = [sampleEntry 0] :=
  (C7_history_eviction_only_at_cap [] (sampleEntry 0)).1 (by decide)

/-- C8: after every completed chat call the session history holds at
most 10 entries, and the agent context is built from at most the last
5 stored exchanges (a suffix of the history) plus the current message
— at most 11 messages. -/
theorem C8_history_and_context_bounds (history : List HistoryEntry)
    (entry : HistoryEntry) (current : String) :
    (appendAndTrimHistory history entry).length ≤ 10
    ∧ (contextEntries history).length ≤ 5
    ∧ contextEntries history <:+ history
    ∧ (buildAgentContext history current).length ≤ 2 * 5 + 1 := by
  have hctx : (contextEntries history).length ≤ 5 := by
    unfold contextEntries
    rw [List.length_drop]
    omega
  refine ⟨?_, hctx, ?_, ?_⟩
  · rw [appendAndTrimHistory_length]
    omega
  · exact List.drop_suffix _ _
  · rw [buildAgentContext_length]
    omega

/-- C9: the agent is bound to exactly the three tools `rag_tool`,
`disease_prediction` and `medical_web_search`, and the tool node
dispatches every tool call by name to one of them (an unknown name
falls into the canned-error branch instead). -/
theorem C9_three_bound_tools :
    tools.map ToolSpec.name = ["rag_tool", "disease_prediction", "medical_web_search"]
    ∧ tools.length = 3
    ∧ (∀ tc : ToolCall, ∀ t : ToolSpec, tools_by_name tc.name = some t →
        t ∈ tools ∧ t.name = tc.name)
    ∧ (∀ invoke : ToolSpec → String → Except String String, ∀ tc : ToolCall,
        tools_by_name tc.name = none →
        tool_node_message invoke tc = ⟨toolNodeErrorMessage, tc.id⟩) := by
  refine ⟨rfl, rfl, ?_, ?_⟩
  · intro tc t hfind
    refine ⟨List.mem_of_find?_eq_some hfind, ?_⟩
    have hp := List.find?_some hfind
    simpa using hp
  · intro invoke tc hnone
    unfold tool_node_message
    rw [hnone]

/-- Witness for C9: looking up the name "rag_tool" dispatches to the
bound `rag_tool` tool. -/
theorem C9_three_bound_tools_witness :
    ToolSpec.rag_tool ∈ tools ∧ ToolSpec.rag_tool.name = "rag_tool" :=
  C9_three_bound_tools.2.2.1 ⟨"rag_tool", "what is dengue", "call_1"⟩
    ToolSpec.rag_tool (by decide)

/-- C10: `rag_tool` is a single parameterized retrieval call.  On a
normal retrieval it returns the fixed fallback message exactly when the
result is empty or shorter than 20 characters after stripping, and the
knowledge-base header plus the result otherwise; on an exception whose
message mentions a missing index (NOT_FOUND, or a lowercased
"not found") it returns the knowledge-base-unavailable message, and the
generic error message on any other exception. -/
theorem C10_rag_tool_behaviour (retrieve : String → Except String String) (query : String) :
    (∀ result, retrieve query = Except.ok result →
      ((rag_tool retrieve query = ragFallbackMessage
          ↔ (result = "" ∨ (strTrim result).length < 20))
        ∧ (¬ (result = "" ∨ (strTrim result).length < 20) →
            rag_tool retrieve query = ragHeader ++ result)))
    ∧ (∀ e, retrieve query = Except.error e →
        (((strContains e "NOT_FOUND" || strContains (strLower e) "not found") = true →
            rag_tool retrieve query = ragUnavailableMessage)
          ∧ ((strContains e "NOT_FOUND" || strContains (strLower e) "not found") = false →
            rag_tool retrieve query = ragErrorMessage))) := by
  constructor
  · intro result hok
    have hr : rag_tool retrieve query =
        if result = "" || (strTrim result).length < 20 then ragFallbackMessage
        else ragHeader ++ result := by
      unfold rag_tool
      rw [hok]
    rw [hr]
    split
    · rename_i hcond
      have hc : result = "" ∨ (strTrim result).length < 20 := by
        simpa using hcond
      exact ⟨iff_of_true rfl hc, fun hn => absurd hc hn⟩
    · rename_i hcond
      have hc : ¬ (result = "" ∨ (strTrim result).length < 20) := by
        simpa using hcond
      exact ⟨iff_of_false (ragHeader_ne_fallback result) hc, fun _ => rfl⟩
  · intro e herr
    have hr : rag_tool retrieve query =
        if strContains e "NOT_FOUND" || strContains (strLower e) "not found" then
          ragUnavailableMessage
        else ragErrorMessage := by
      unfold rag_tool
      rw [herr]
    rw [hr]
    constructor
    · intro hcond
      rw [if_pos hcond]
    · intro hcond
      rw [if_neg (by simp [hcond])]

/-- Witness for C10: a substantial retrieved answer is returned under
the knowledge-base header, and a NOT_FOUND exception yields the
knowledge-base-unavailable message. -/
theorem C10_rag_tool_behaviour_witness :
    rag_tool (fun _ => Except.ok "Dengue fever is a mosquito-borne viral infection.") "dengue"
      = ragHeader ++ "Dengue fever is a mosquito-borne viral infection."
    ∧ rag_tool (fun _ => Except.error "Index NOT_FOUND: mediblaze-bot") "dengue"
      = ragUnavailableMessage :=
  ⟨((C10_rag_tool_behaviour
      (fun _ => Except.ok "Dengue fever is a mosquito-borne viral infection.") "dengue").1
      "Dengue fever is a mosquito-borne viral infection." rfl).2 (by decide),
   ((C10_rag_tool_behaviour
      (fun _ => Except.error "Index NOT_FOUND: mediblaze-bot") "dengue").2
      "Index NOT_FOUND: mediblaze-bot" rfl).1 (by decide)⟩

/-- C3 counterexample: the exception fallback of `disease_prediction` embeds
the exception message, so the string returned after an exception is not
a fixed canned string — two different exceptions give two different
strings. -/
theorem C3_canned_error_counterexample :
    disease_prediction (Except.error "PineconeApiException") "fever" "2 days" "mild" ""
      ≠ disease_prediction (Except.error "TimeoutError") "fever" "2 days" "mild" "" := by
  decide

/-- C3 (amended): no exception propagates.  The tool node returns the
fixed canned `ToolMessage` — independent of the exception — both when
the name lookup fails and when the tool invocation raises;
`medical_web_search` and `rag_tool` catch every internal exception and
return fixed canned strings; `disease_prediction` also catches every
internal exception but its fallback string embeds the exception
message, so that fallback is exception-dependent rather than fixed. -/
theorem C3_exceptions_contained (invoke : ToolSpec → String → Except String String)
    (tc : ToolCall) (search retrieve : String → Except String String)
    (query e : String) (symptoms duration severity additional_info : String) :
    (tools_by_name tc.name = none →
      tool_node_message invoke tc = ⟨toolNodeErrorMessage, tc.id⟩)
    ∧ (∀ t : ToolSpec, tools_by_name tc.name = some t →
        invoke t tc.args = Except.error e →
        tool_node_message invoke tc = ⟨toolNodeErrorMessage, tc.id⟩)
    ∧ (search (medicalQuery query) = Except.error e →
        medical_web_search search query = webErrorMessage)
    ∧ (retrieve query = Except.error e →
        (rag_tool retrieve query = ragUnavailableMessage
          ∨ rag_tool retrieve query = ragErrorMessage))
    ∧ disease_prediction (Except.error e) symptoms duration severity additional_info
        = "⚠️ Unable to perform disease prediction analysis at this time. Error: " ++ e
          ++ "\n\nPlease consult with a healthcare professional for proper diagnosis." := by
  refine ⟨?_, ?_, ?_, ?_, rfl⟩
  · intro hnone
    unfold tool_node_message
    rw [hnone]
  · intro t hsome herr
    have hr : tool_node_message invoke tc =
        match invoke t tc.args with
        | Except.ok observation => ⟨observation, tc.id⟩
        | Except.error _ => ⟨toolNodeErrorMessage, tc.id⟩ := by
      unfold tool_node_message
      rw [hsome]
    rw [hr, herr]
  · intro herr
    unfold medical_web_search
    rw [herr]
  · intro herr
    have hr : rag_tool retrieve query =
        if strContains e "NOT_FOUND" || strContains (strLower e) "not found" then
          ragUnavailableMessage
        else ragErrorMessage := by
      unfold rag_tool
      rw [herr]
    rw [hr]
    split
    · exact Or.inl rfl
    · exact Or.inr rfl

/-- Witness for C3 (amended): a concrete failing invocation yields the
canned tool-node message. -/
theorem C3_exceptions_contained_witness :
    tool_node_message (fun _ _ => Except.error "boom") ⟨"rag_tool", "q", "id9"⟩
      = ⟨toolNodeErrorMessage, "id9"⟩ :=
  (C3_exceptions_contained (fun _ _ => Except.error "boom") ⟨"rag_tool", "q", "id9"⟩
    (fun _ => Except.ok "") (fun _ => Except.ok "") "q" "boom" "f" "2 days" "mild" "").2.1
    ToolSpec.rag_tool (by decide) rfl
